import Mathlib

/-!
# CliniMatch — verification of the trial-matching core

Shallow embedding of the matching & translation pipeline of the CliniMatch
backend (`backend/services/trial_matching_service.py`,
`backend/services/gemini_translation_service.py`,
`backend/models/trial_match.py`, `backend/models/user_profile.py`).

Modelling conventions:

* Python strings are Lean `String`; `str.lower()` is `strLower`,
  `str.strip()` is `strTrim`, `str.upper()` is `strUpper`, `pat in s` is
  `strContains s pat`, `s <= t` is `strLe`, and `s[:n]` is `String.take s n`
  (all character-level and kernel-computable).
* Python truthiness of a string (`if s:`) is the test `s ≠ ""`.
* The Gemini call `translate_trial_info` is an external collaborator; it is
  modelled by an oracle `RawTrialData → Option TrialTranslation` where `none`
  stands for every failure mode the source absorbs (exception, unparseable
  JSON, missing required field) and `some tr` for a validated well-formed
  response.
* The thread pool of `_process_trials_with_ai` collects results in completion
  order; this nondeterminism is modelled by an explicit processing `order`
  which theorems quantify over all permutations of the submitted list.
* The MD5 digest of `generate_search_key` is an arbitrary function
  `md5 : String → String` applied to the serialized normalized parameters;
  every property proved here holds for every such digest function.
* Exceptions are `Except`; floats (`ai_translation_success_rate`,
  `processing_time`) are `ℚ` — the endpoint values 0.0 and 1.0 and the small
  integer divisions involved are exact in both representations.
-/

namespace CliniMatch

/-! ### Python string primitives

The Python methods lower, upper and strip act character-wise /
on the two ends of the character sequence; they are modelled directly on the
character list of the string (extensionally the same as the builtin
`String.toLower` etc., but by structural recursion).  The Python `<=` on
strings is lexicographic comparison by code point, and `pat in s` is
contiguous-substring occurrence. -/

/-- Python `str.lower()`: character-wise lowercasing. -/
def strLower (s : String) : String := ⟨s.data.map Char.toLower⟩

/-- Python `str.upper()`: character-wise uppercasing. -/
def strUpper (s : String) : String := ⟨s.data.map Char.toUpper⟩

/-- Python `str.strip()`: whitespace removed from both ends. -/
def strTrim (s : String) : String :=
  ⟨((s.data.dropWhile Char.isWhitespace).reverse.dropWhile Char.isWhitespace).reverse⟩

/-- Lexicographic comparison of character lists by code point. -/
def charListLe : List Char → List Char → Bool
  | [], _ => true
  | _ :: _, [] => false
  | a :: as, b :: bs => if a < b then true else if b < a then false else charListLe as bs

/-- Python `s <= t` on strings: lexicographic by code point. -/
def strLe (s t : String) : Bool := charListLe s.data t.data

/-- Whether `pat` occurs contiguously in `l`. -/
def subOccurs (pat : List Char) : List Char → Bool
  | [] => pat.isEmpty
  | l@(_ :: rest) => pat.isPrefixOf l || subOccurs pat rest

/-- Python `pat in s` for strings. -/
def strContains (s pat : String) : Bool := subOccurs pat.data s.data

theorem charListLe_total : ∀ as bs, charListLe as bs = true ∨ charListLe bs as = true := by
  intro as
  induction as with
  | nil => intro bs; left; rfl
  | cons a as ih =>
    intro bs
    cases bs with
    | nil => right; rfl
    | cons b bs =>
      by_cases hab : a < b
      · left; simp [charListLe, hab]
      · by_cases hba : b < a
        · right; simp [charListLe, hba]
        · have : ¬ a < b := hab
          rcases ih bs with h | h
          · left; simp [charListLe, hab, hba, h]
          · right; simp [charListLe, hab, hba, h]

theorem charListLe_trans :
    ∀ as bs cs, charListLe as bs = true → charListLe bs cs = true →
      charListLe as cs = true := by
  intro as
  induction as with
  | nil => intro bs cs _ _; rfl
  | cons a as ih =>
    intro bs cs h1 h2
    cases bs with
    | nil => simp [charListLe] at h1
    | cons b bs =>
      cases cs with
      | nil => simp [charListLe] at h2
      | cons c cs =>
        simp only [charListLe] at h1 h2 ⊢
        by_cases hab : a < b
        · by_cases hbc : b < c
          · simp [lt_trans hab hbc]
          · by_cases hcb : c < b
            · simp [hbc, hcb] at h2
            · have hbceq : b = c := le_antisymm (le_of_not_lt hcb) (le_of_not_lt hbc)
              subst hbceq
              simp [hab]
        · by_cases hba : b < a
          · simp [hab, hba] at h1
          · have habeq : a = b := le_antisymm (le_of_not_lt hba) (le_of_not_lt hab)
            subst habeq
            rw [if_neg (lt_irrefl a), if_neg (lt_irrefl a)] at h1
            by_cases hac : a < c
            · simp [hac]
            · by_cases hca : c < a
              · simp [hac, hca] at h2
              · have : a = c := le_antisymm (le_of_not_lt hca) (le_of_not_lt hac)
                subst this
                rw [if_neg (lt_irrefl a), if_neg (lt_irrefl a)] at h2 ⊢
                exact ih bs cs h1 h2

theorem charListLe_antisymm :
    ∀ as bs, charListLe as bs = true → charListLe bs as = true → as = bs := by
  intro as
  induction as with
  | nil =>
    intro bs _ h2
    cases bs with
    | nil => rfl
    | cons b bs => simp [charListLe] at h2
  | cons a as ih =>
    intro bs h1 h2
    cases bs with
    | nil => simp [charListLe] at h1
    | cons b bs =>
      simp only [charListLe] at h1 h2
      by_cases hab : a < b
      · simp [hab, asymm hab] at h2
      · by_cases hba : b < a
        · simp [hab, hba] at h1
        · have : a = b := le_antisymm (le_of_not_lt hba) (le_of_not_lt hab)
          subst this
          simp only [lt_irrefl, if_false, ite_false] at h1 h2
          rw [ih bs h1 h2]

theorem strLe_total (s t : String) : strLe s t = true ∨ strLe t s = true :=
  charListLe_total s.data t.data

theorem strLe_trans {s t u : String} (h1 : strLe s t = true) (h2 : strLe t u = true) :
    strLe s u = true :=
  charListLe_trans s.data t.data u.data h1 h2

theorem strLe_antisymm {s t : String} (h1 : strLe s t = true) (h2 : strLe t s = true) :
    s = t := by
  cases s with
  | mk ds =>
    cases t with
    | mk dt =>
      have := charListLe_antisymm ds dt h1 h2
      simp [this]

/-! ## Data model (`models/user_profile.py`, `models/trial_match.py`,
`services/clinical_trials_service.py` dataclasses) -/

/-- Model of `LocationData` from `models/user_profile.py`. -/
structure LocationData where
  city : String
  state : String
  country : String
  zip_code : Option String
deriving DecidableEq, Repr

/-- Model of `LifestyleData` from `models/user_profile.py`. -/
structure LifestyleData where
  smoking : Bool
  drinking : String
deriving DecidableEq, Repr

/-- Model of `UserProfile` from `models/user_profile.py`. -/
structure UserProfile where
  age : Int
  conditions : List String
  medications : List String
  location : LocationData
  lifestyle : LifestyleData
deriving DecidableEq, Repr

/-- Model of `TrialLocation` (same fields in `clinical_trials_service.py` and
`models/trial_match.py`; coordinates modelled as an optional pair of
rationals). -/
structure TrialLocation where
  facility : String
  city : String
  state : String
  country : String
  zip_code : Option String
  coordinates : Option (ℚ × ℚ)
deriving DecidableEq, Repr

/-- Model of `ContactInfo` (same fields in `clinical_trials_service.py` and
`models/trial_match.py`). -/
structure ContactInfo where
  name : Option String
  phone : Option String
  email : Option String
deriving DecidableEq, Repr

/-- Model of `RawTrialData` from `services/clinical_trials_service.py`. -/
structure RawTrialData where
  nct_id : String
  title : String
  brief_summary : String
  detailed_description : String
  eligibility_criteria : String
  inclusion_criteria : List String
  exclusion_criteria : List String
  locations : List TrialLocation
  contact_info : ContactInfo
  study_type : String
  phase : Option String
  status : String
  start_date : Option String
  completion_date : Option String
  sponsor : String
  conditions : List String
  interventions : List String
deriving DecidableEq, Repr

/-- Model of `TrialTranslation` from `services/gemini_translation_service.py`. -/
structure TrialTranslation where
  simplified_description : String
  eligibility_simplified : String
  time_commitment : String
  key_benefits : String
  compensation_explanation : Option String
deriving DecidableEq, Repr

/-- Model of `TrialMatch` from `models/trial_match.py`.  The dataclass declares
`conditions`, `interventions` and `contact_info` with default `None`, so the
raw fields are `Option`-typed; construction in Python always runs
`__post_init__` (`TrialMatch.post_init` below) over the raw field values. -/
structure TrialMatch where
  nct_id : String
  title : String
  original_description : String
  simplified_description : String
  locations : List TrialLocation
  eligibility_criteria : String
  eligibility_simplified : String
  compensation : Option String
  compensation_explanation : Option String
  time_commitment : String
  key_benefits : String
  contact_info : Option ContactInfo
  study_type : String
  phase : Option String
  status : String
  sponsor : String
  conditions : Option (List String)
  interventions : Option (List String)
deriving DecidableEq, Repr

/-- Model of `TrialMatch.__post_init__` (`models/trial_match.py` lines 72-79):
replaces a `None` conditions list and interventions list by `[]` and a
`None` contact_info by an empty `ContactInfo()`. -/
def TrialMatch.post_init (m : TrialMatch) : TrialMatch :=
  { m with
    conditions := some (m.conditions.getD [])
    interventions := some (m.interventions.getD [])
    contact_info := some (m.contact_info.getD ⟨none, none, none⟩) }

/-- The search parameters echoed by `UserProfile.get_search_params`. -/
structure SearchParams where
  conditions : List String
  city : String
  state : String
  country : String
  age : Int
deriving DecidableEq, Repr

/-- Model of `UserProfile.get_search_params` from `models/user_profile.py`. -/
def get_search_params (p : UserProfile) : SearchParams :=
  ⟨p.conditions, p.location.city, p.location.state, p.location.country, p.age⟩

/-- Model of `MatchingResult` from `models/trial_match.py`. -/
structure MatchingResult where
  «matches» : List TrialMatch
  total_found : Nat
  processing_time : ℚ
  search_params : SearchParams
  cached : Bool
  ai_translation_success_rate : ℚ
deriving DecidableEq, Repr

/-- Model of `TrialMatchingError` from `services/trial_matching_service.py`: a message
plus an `error_type` classification (default `"MATCHING_ERROR"`). -/
structure TrialMatchingError where
  message : String
  error_type : String
deriving DecidableEq, Repr

/-! ## Cache Key Generator (`generate_search_key`, `_get_age_range`) -/

/-- Model of `_get_age_range` (`trial_matching_service.py` lines 88-107). -/
def get_age_range (age : Int) : String :=
  if age < 18 then "under_18"
  else if age < 30 then "18_29"
  else if age < 50 then "30_49"
  else if age < 65 then "50_64"
  else "65_plus"

/-- One condition as normalized by `generate_search_key`:
`condition.lower().strip()`. -/
def normalizeCondition (c : String) : String := strTrim (strLower c)

/-- The normalized, ascending-sorted condition list of
`generate_search_key`: `sorted([c.lower().strip() for c in conditions])`. -/
def sortedConditions (p : UserProfile) : List String :=
  List.insertionSort (fun a b => strLe a b = true) (p.conditions.map normalizeCondition)

/-- A JSON string literal.  (The `json.dumps` character escaping is omitted:
it is a function of the string, so it does not affect any key-equality
property proved here.) -/
def jstr (s : String) : String := "\"" ++ s ++ "\""

/-- The deterministic serialized text hashed by `generate_search_key`
(`json.dumps(search_params, sort_keys=True)`): keys in sorted order
(`age_range`, `conditions`, `location`; inside location `city`, `country`,
`state`), `version` fixed to `"1.0"`. -/
def searchString (p : UserProfile) : String :=
  "\x7b\"age_range\": " ++ jstr (get_age_range p.age) ++
  ", \"conditions\": [" ++ String.intercalate ", " ((sortedConditions p).map jstr) ++ "]" ++
  ", \"location\": \x7b\"city\": " ++ jstr (strTrim (strLower p.location.city)) ++
  ", \"country\": " ++ jstr (strTrim (strLower p.location.country)) ++
  ", \"state\": " ++ jstr (strTrim (strLower p.location.state)) ++ "\x7d" ++
  ", \"version\": \"1.0\"\x7d"

/-- Model of `generate_search_key` (`trial_matching_service.py` lines 60-86): the MD5
hex digest of the serialized normalized search parameters.  The digest is an
arbitrary function of the serialized text. -/
def generate_search_key (md5 : String → String) (p : UserProfile) : String :=
  md5 (searchString p)

/-! ## Eligibility & Relevance Filter (`_filter_trials`,
`trial_matching_service.py` lines 207-290) -/

/-- Python test of line 228: is the lowercased status one of completed,
terminated, withdrawn. -/
def isExcludedStatus (status : String) : Bool :=
  ["completed", "terminated", "withdrawn"].contains (strLower status)

/-- Python test of line 256: is the lowercased status recruiting or not yet
recruiting. -/
def isRecruitingStatus (status : String) : Bool :=
  ["recruiting", "not yet recruiting"].contains (strLower status)

/-- Python test of line 258: is the lowercased status one of the two active
variants. -/
def isActiveStatus (status : String) : Bool :=
  ["active, not recruiting", "enrolling by invitation"].contains (strLower status)

/-- The four `elif` regional-cluster tests of `_filter_trials` (lines
242-249).  Each branch sets the same `has_nearby_location` flag, so the
`elif` chain is their disjunction. -/
def clusterNearby (us st : String) : Bool :=
  (["NY", "NJ", "CT"].contains us && ["NY", "NJ", "CT", "PA", "MA"].contains st) ||
  (["CA", "NV", "OR"].contains us && ["CA", "NV", "OR", "WA", "AZ"].contains st) ||
  (["TX", "LA", "OK"].contains us && ["TX", "LA", "OK", "AR", "NM"].contains st) ||
  (["FL", "GA", "AL"].contains us && ["FL", "GA", "AL", "SC", "NC"].contains st)

/-- The location scan of `_filter_trials` (lines 236-249): walks the trial
locations accumulating `has_nearby_location`, and `break`s with
`has_local_location = true` on an exact state match.  Locations with a falsy
(empty) `state` are skipped.  Returns `(has_local, has_nearby)`. -/
def scanLocations (us : String) : List TrialLocation → Bool → Bool × Bool
  | [], nearby => (false, nearby)
  | loc :: rest, nearby =>
    if loc.state ≠ "" then
      let st := strUpper loc.state
      if st = us then (true, nearby)
      else scanLocations us rest (nearby || clusterNearby us st)
    else scanLocations us rest nearby

/-- Model of line 218: the uppercased user state, or the empty string when
the state field is falsy. -/
def userState (p : UserProfile) : String :=
  if p.location.state ≠ "" then strUpper p.location.state else ""

/-- The category a trial is assigned by the loop body of `_filter_trials`
(lines 226-259): `5` = dropped as completed/terminated/withdrawn, `0` =
`local_trials`, `1` = `nearby_trials`, `2` = `recruiting_trials`, `3` =
`active_trials`, `4` = none of these (not appended to any bucket). -/
def trialCat (us : String) (t : RawTrialData) : Nat :=
  if isExcludedStatus t.status then 5
  else
    let scan := scanLocations us t.locations false
    if scan.1 then 0
    else if scan.2 then 1
    else if isRecruitingStatus t.status then 2
    else if isActiveStatus t.status then 3
    else 4

/-- Bucket `i` of `_filter_trials`.  The Python loop appends each trial to
the single list its category selects, preserving input order, so bucket `i`
is exactly the input filtered to the trials of category `i`. -/
def bucket (us : String) (i : Nat) (raw : List RawTrialData) : List RawTrialData :=
  raw.filter (fun t => trialCat us t == i)

/-- The concatenation of the four buckets with their caps (lines 261-274):
all local trials, nearby up to 20, recruiting up to 30, active up to 15. -/
def preFiltered (raw : List RawTrialData) (us : String) : List RawTrialData :=
  bucket us 0 raw ++ (bucket us 1 raw).take 20 ++
    (bucket us 2 raw).take 30 ++ (bucket us 3 raw).take 15

/-- Model of `_filter_trials` (lines 207-290): the capped bucket concatenation, then,
when it holds fewer than 10 trials, a backfill of up to 15 further trials
that are not already included (`trial not in filtered_trials`, i.e. not
structurally equal to an included trial) and not
completed/terminated/withdrawn. -/
def filter_trials (raw : List RawTrialData) (p : UserProfile) : List RawTrialData :=
  let us := userState p
  let filtered := preFiltered raw us
  if filtered.length < 10 then
    let remaining := raw.filter fun t =>
      !(filtered.contains t) && !(isExcludedStatus t.status)
    filtered ++ remaining.take 15
  else
    filtered

/-! ## Translation fallback (`gemini_translation_service.py`) -/

/-- Model of `create_fallback_translation` (`gemini_translation_service.py` lines
173-193): truncates overlong description/criteria to a bounded prefix with an
ellipsis and substitutes static "not available" texts. -/
def create_fallback_translation (title criteria description : String)
    (compensation : Option String) : TrialTranslation where
  simplified_description :=
    if description.length > 200 then
      "This study is titled \x27" ++ title ++ "\x27. " ++ description.take 200 ++ "..."
    else description
  eligibility_simplified :=
    if criteria.length > 150 then
      "Please review the detailed eligibility criteria: " ++ criteria.take 150 ++ "..."
    else criteria
  time_commitment :=
    "Time commitment information not available. Please contact the study team for details."
  key_benefits :=
    "Benefits information not available. Please contact the study team for details."
  compensation_explanation :=
    match compensation with
    | some c => if c = "" then some "Compensation information not available." else some c
    | none => some "Compensation information not available."

/-- An oracle standing for `translate_trial_info`: `none` is any absorbed
failure (exception, empty or unparseable response, missing required field),
`some tr` a validated response carrying all four required fields. -/
abbrev TranslateOracle := RawTrialData → Option TrialTranslation

/-- Model of `raw_trial.brief_summary or raw_trial.detailed_description`
(string truthiness). -/
def descriptionOf (t : RawTrialData) : String :=
  if t.brief_summary = "" then t.detailed_description else t.brief_summary

/-- Model of `translate_with_fallback` (`gemini_translation_service.py` lines
195-217) as invoked by `_process_single_trial`: the AI translation when it
succeeds, else the deterministic fallback built from the original trial text. -/
def translate_with_fallback (o : TranslateOracle) (t : RawTrialData) : TrialTranslation :=
  match o t with
  | some tr => tr
  | none => create_fallback_translation t.title t.eligibility_criteria (descriptionOf t) none

/-! ## Translation Worker Pool (`_process_trials_with_ai`,
`_process_single_trial`) -/

/-- The fallback-origin detection of `_process_single_trial` (lines 405-409):
the translation is treated as coming from the fallback path iff its
simplified eligibility contains `"Please review the detailed eligibility
criteria"` or its time commitment contains `"Time commitment information not
available"`. -/
def hasFallbackMarkers (elig time : String) : Bool :=
  strContains elig "Please review the detailed eligibility criteria" ||
  strContains time "Time commitment information not available"

/-- Model of `_process_single_trial` (lines 386-458): translate with fallback, flag
success iff the final text lacks the fallback markers, and assemble the
`TrialMatch` (constructed through `__post_init__`).  The `except` branch of
the source is unreachable here: `translate_with_fallback` absorbs every
translation failure and the remaining statements are pure field accesses and
constructors. -/
def process_single_trial (o : TranslateOracle) (t : RawTrialData) : TrialMatch × Bool :=
  let translation := translate_with_fallback o t
  let translation_success :=
    !(hasFallbackMarkers translation.eligibility_simplified translation.time_commitment)
  let m : TrialMatch :=
    { nct_id := t.nct_id
      title := t.title
      original_description := descriptionOf t
      simplified_description := translation.simplified_description
      locations := t.locations
      eligibility_criteria := t.eligibility_criteria
      eligibility_simplified := translation.eligibility_simplified
      compensation := none
      compensation_explanation := translation.compensation_explanation
      time_commitment := translation.time_commitment
      key_benefits := translation.key_benefits
      contact_info := some t.contact_info
      study_type := t.study_type
      phase := t.phase
      status := t.status
      sponsor := t.sponsor
      conditions := some t.conditions
      interventions := some t.interventions }
  (m.post_init, translation_success)

/-- Model of `_process_trials_with_ai` (lines 343-384): every submitted trial is
processed by `_process_single_trial`; results are appended in completion
order, modelled by the explicit `order` list (a permutation of the submitted
`raw`).  `ai_success_rate = successful_translations / len(raw_trials) if
raw_trials else 0.0`. -/
def process_trials_with_ai (o : TranslateOracle) (raw order : List RawTrialData) :
    List TrialMatch × ℚ :=
  let results := order.map (process_single_trial o)
  let processed_matches := results.map Prod.fst
  let successful_translations := (results.filter (fun r => r.2)).length
  let ai_success_rate : ℚ :=
    if raw.isEmpty then 0 else (successful_translations : ℚ) / (raw.length : ℚ)
  (processed_matches, ai_success_rate)

/-! ## Match Assembler (`find_matching_trials`, `_search_trials`) -/

/-- Outcome of the Trial Source Adapter
(`clinical_trials_service.search_trials`): a list of raw trials, or a raised
exception carrying a message. -/
abbrev SearchOracle := SearchParams → Except String (List RawTrialData)

/-- Model of `_search_trials` (lines 316-341): calls the adapter with the given profile
search parameters; any exception is re-raised as
`TrialMatchingError(f"Failed to search clinical trials: {e}", "API_ERROR")`. -/
def search_trials (searchO : SearchOracle) (p : UserProfile) :
    Except TrialMatchingError (List RawTrialData) :=
  match searchO (get_search_params p) with
  | .ok ts => .ok ts
  | .error msg => .error ⟨"Failed to search clinical trials: " ++ msg, "API_ERROR"⟩

/-- Which collaborators a `find_matching_trials` run actually invoked. -/
structure CallTrace where
  cache_lookup_attempted : Bool
  trial_source_called : Bool
  translation_calls : Nat
deriving DecidableEq, Repr

/-- Model of `find_matching_trials` (lines 109-205).  Faithful to the source: the
cache lookup is disabled (`cached_data = None  # self._get_cached_results(
user_profile)`, line 127), so the cache oracle is never consulted; on an
adapter failure the outer `except` re-wraps the raised error as
`TrialMatchingError(f"Failed to find matching trials: {e}")` whose
`error_type` is the default `"MATCHING_ERROR"`; an empty adapter result
returns an empty `MatchingResult` before the filter and pool run.
`processing_time` (wall-clock) is modelled as `0`.  The returned `CallTrace`
records which collaborators were invoked. -/
def find_matching_trials (md5 : String → String)
    (cacheO : String → Option MatchingResult)
    (searchO : SearchOracle) (translateO : TranslateOracle)
    (sched : List RawTrialData → List RawTrialData)
    (p : UserProfile) : Except TrialMatchingError MatchingResult × CallTrace :=
  let _search_key := generate_search_key md5 p
  -- `cached_data = None  # self._get_cached_results(user_profile)`:
  -- the lookup `cacheO` is never called.
  let cached_data : Option MatchingResult := none
  match cached_data with
  | some r => (.ok { r with cached := true }, ⟨true, false, 0⟩)
  | none =>
    match search_trials searchO p with
    | .error e =>
        (.error ⟨"Failed to find matching trials: " ++ e.message, "MATCHING_ERROR"⟩,
          ⟨false, true, 0⟩)
    | .ok raw_trials =>
      if raw_trials.isEmpty then
        (.ok { «matches» := [], total_found := 0, processing_time := 0,
               search_params := get_search_params p, cached := false,
               ai_translation_success_rate := 0 }, ⟨false, true, 0⟩)
      else
        let filtered := filter_trials raw_trials p
        let processed := process_trials_with_ai translateO filtered (sched filtered)
        (.ok { «matches» := processed.1, total_found := processed.1.length,
               processing_time := 0, search_params := get_search_params p,
               cached := false, ai_translation_success_rate := processed.2 },
          ⟨false, true, filtered.length⟩)

/-! ## Shared sample inputs for witnesses and counterexamples -/

/-- An empty contact record. -/
def sampleContact : ContactInfo := ⟨none, none, none⟩

/-- A small recruiting trial. -/
def sampleTrial : RawTrialData :=
  ⟨"NCT00000001", "Sample Study", "A short summary", "A detailed description",
    "Adults 18-65", [], [], [], sampleContact, "Interventional", none,
    "Recruiting", none, none, "Sponsor", ["Condition"], ["Drug"]⟩

/-- A trial in no bucket: status outside every status list, no locations. -/
def sampleTrial2 : RawTrialData :=
  { sampleTrial with nct_id := "NCT00000002", status := "Unknown status" }

/-- A sample profile. -/
def sampleProfile : UserProfile :=
  ⟨45, ["diabetes", "hypertension"], ["metformin"],
    ⟨"San Francisco", "CA", "United States", none⟩, ⟨false, "occasional"⟩⟩

/-- A translation oracle on which every call fails (fallback-only run). -/
def failOracle : TranslateOracle := fun _ => none

/-- A completed trial — unconditionally excluded by the filter. -/
def completedTrial : RawTrialData :=
  { sampleTrial with nct_id := "NCT00000003", status := "Completed" }

/-! ## C10 — `__post_init__` defaults -/

/-- C10: every `TrialMatch`, however constructed, leaves `__post_init__`
with non-`None` conditions, interventions and contact info: `None`
conditions/interventions become `[]` and a `None` contact becomes an empty
`ContactInfo`. -/
theorem post_init_fields_not_none (m : TrialMatch) :
    ((m.post_init).conditions.isSome ∧ (m.post_init).interventions.isSome ∧
      (m.post_init).contact_info.isSome) ∧
    (m.conditions = none → (m.post_init).conditions = some []) ∧
    (m.interventions = none → (m.post_init).interventions = some []) ∧
    (m.contact_info = none → (m.post_init).contact_info = some ⟨none, none, none⟩) := by
  refine ⟨⟨rfl, rfl, rfl⟩, ?_, ?_, ?_⟩ <;> intro h <;> simp [TrialMatch.post_init, h]

/-- A raw `TrialMatch` record with `None` conditions, interventions and
contact info. -/
def allNoneMatch : TrialMatch :=
  ⟨"NCT00000009", "T", "od", "sd", [], "ec", "es", none, none, "tc", "kb",
    none, "st", none, "Recruiting", "sp", none, none⟩

/-- Witness for C10 at a record whose three optional fields are all `None`. -/
theorem post_init_fields_not_none_witness :
    allNoneMatch.conditions = none ∧ (allNoneMatch.post_init).conditions = some [] ∧
      (allNoneMatch.post_init).contact_info = some ⟨none, none, none⟩ :=
  ⟨rfl, (post_init_fields_not_none allNoneMatch).2.1 rfl,
    (post_init_fields_not_none allNoneMatch).2.2.2 rfl⟩

/-! ## C2 — the Worker Pool returns exactly one `TrialMatch` per submitted
trial -/

/-- C2: for every translation oracle (including the all-failing one) and
every completion order of the N submitted trials, the pool returns exactly N
`TrialMatch` objects — no trial is dropped after the filter stage. -/
theorem pool_returns_one_match_per_trial (o : TranslateOracle)
    (raw order : List RawTrialData) (h : order.Perm raw) :
    ((process_trials_with_ai o raw order).1).length = raw.length := by
  simp [process_trials_with_ai, h.length_eq]

/-- Witness for C2: a fallback-only run (every translation call fails) over
two trials collected in reversed completion order still yields two matches. -/
theorem pool_returns_one_match_per_trial_witness :
    ([sampleTrial2, sampleTrial].Perm [sampleTrial, sampleTrial2]) ∧
    ((process_trials_with_ai failOracle [sampleTrial, sampleTrial2]
        [sampleTrial2, sampleTrial]).1).length = 2 :=
  ⟨List.Perm.swap _ _ _,
    pool_returns_one_match_per_trial failOracle [sampleTrial, sampleTrial2]
      [sampleTrial2, sampleTrial] (List.Perm.swap _ _ _)⟩

/-! ## C6 — the per-trial success flag -/

/-- The static fallback `time_commitment` text contains the characteristic
fallback marker. -/
theorem fallback_time_has_marker :
    strContains
      "Time commitment information not available. Please contact the study team for details."
      "Time commitment information not available" = true := by decide

/-- C6: the per-trial success flag is `true` iff the final translation
content is not detected as fallback-originated, where detection checks the
translated fields for the fallback marker strings; in particular the
actual fallback path (a failed translation call) always yields `false`. -/
theorem success_flag_iff_no_fallback_markers (o : TranslateOracle) (t : RawTrialData) :
    ((process_single_trial o t).2 =
      !(hasFallbackMarkers (process_single_trial o t).1.eligibility_simplified
          (process_single_trial o t).1.time_commitment)) ∧
    (o t = none → (process_single_trial o t).2 = false) := by
  constructor
  · rfl
  · intro h
    simp only [process_single_trial, translate_with_fallback, h, hasFallbackMarkers,
      create_fallback_translation]
    simp [fallback_time_has_marker]

/-- Witness for C6: on a failing translation call the flag is `false`. -/
theorem success_flag_iff_no_fallback_markers_witness :
    failOracle sampleTrial = none ∧ (process_single_trial failOracle sampleTrial).2 = false :=
  ⟨rfl, (success_flag_iff_no_fallback_markers failOracle sampleTrial).2 rfl⟩

/-! ## C5 — cache-key order/case independence -/

/-- Sorting with the lexicographic order is permutation-invariant. -/
theorem insertionSort_strLe_eq_of_perm {l₁ l₂ : List String} (h : l₁.Perm l₂) :
    List.insertionSort (fun a b => strLe a b = true) l₁ =
      List.insertionSort (fun a b => strLe a b = true) l₂ := by
  haveI : IsTotal String (fun a b => strLe a b = true) := ⟨strLe_total⟩
  haveI : IsTrans String (fun a b => strLe a b = true) := ⟨fun _ _ _ => strLe_trans⟩
  haveI : IsAntisymm String (fun a b => strLe a b = true) := ⟨fun _ _ => strLe_antisymm⟩
  refine List.eq_of_perm_of_sorted ?_ (List.sorted_insertionSort _ _)
    (List.sorted_insertionSort _ _)
  exact (List.perm_insertionSort _ l₁).trans (h.trans (List.perm_insertionSort _ l₂).symm)

set_option maxHeartbeats 1000000 in
/-- C5: two profiles that differ only in the order or letter case of their
condition lists and in the letter case of city/state/country produce the
same cache key, for every digest function. -/
theorem cache_key_order_case_independent (md5 : String → String) (p q : UserProfile)
    (hcond : (p.conditions.map strLower).Perm (q.conditions.map strLower))
    (hcity : strLower p.location.city = strLower q.location.city)
    (hstate : strLower p.location.state = strLower q.location.state)
    (hcountry : strLower p.location.country = strLower q.location.country)
    (hage : p.age = q.age) :
    generate_search_key md5 p = generate_search_key md5 q := by
  unfold generate_search_key
  congr 1
  have hnorm : ∀ (r : UserProfile),
      r.conditions.map normalizeCondition = (r.conditions.map strLower).map strTrim := by
    intro r
    rw [List.map_map]
    rfl
  have hsorted : sortedConditions p = sortedConditions q := by
    unfold sortedConditions
    refine insertionSort_strLe_eq_of_perm ?_
    rw [hnorm p, hnorm q]
    exact hcond.map strTrim
  unfold searchString
  rw [hsorted, hage, hcity, hstate, hcountry]

/-- A profile with mixed-case, unordered conditions and mixed-case location. -/
def profileA : UserProfile :=
  ⟨45, ["Hypertension", "diabetes"], ["metformin"],
    ⟨"San Francisco", "CA", "United States", none⟩, ⟨false, "occasional"⟩⟩

/-- The same search intent as `profileA`: conditions reordered and recased,
location fields recased. -/
def profileB : UserProfile :=
  ⟨45, ["DIABETES", "hypertension"], ["metformin"],
    ⟨"san francisco", "ca", "UNITED STATES", none⟩, ⟨false, "occasional"⟩⟩

set_option maxHeartbeats 2000000 in
/-- Witness for C5 at two concrete equivalent profiles (digest function
instantiated with the identity — the property holds for every digest). -/
theorem cache_key_order_case_independent_witness :
    (profileA.conditions.map strLower).Perm (profileB.conditions.map strLower) ∧
      generate_search_key id profileA = generate_search_key id profileB :=
  ⟨by decide,
    cache_key_order_case_independent id profileA profileB (by decide) (by decide)
      (by decide) (by decide) (by decide)⟩

/-! ## C1 — the cache fast path (disabled in the source) -/

/-- A non-empty cached result, as a cache store would hold for a previously
answered search. -/
def cachedResult : MatchingResult :=
  ⟨[allNoneMatch.post_init], 1, 0, get_search_params sampleProfile, false, 1⟩

/-- A cache oracle holding an entry for every key — in particular for
the key of `sampleProfile`: any lookup would hit. -/
def cacheHitOracle : String → Option MatchingResult := fun _ => some cachedResult

/-- A trial source that returns one recruiting trial. -/
def searchOkOracle : SearchOracle := fun _ => .ok [sampleTrial]

/-- C1 (divergence witness): even with a cache entry present for the key of
the profile, `find_matching_trials` never attempts the cache lookup
(`cached_data = None  # self._get_cached_results(user_profile)`), calls the
Trial Source Adapter, and returns a result with `cached = false` — the
test `test_find_matching_trials_with_cache_hit` of the repository asserts the
opposite (`result.cached is True`, `get_cached_trials.assert_called_once()`,
`search_trials.assert_not_called()`). -/
theorem cache_fast_path_never_taken :
    (cacheHitOracle (generate_search_key id sampleProfile)).isSome = true ∧
    (find_matching_trials id cacheHitOracle searchOkOracle failOracle id
        sampleProfile).2.cache_lookup_attempted = false ∧
    (find_matching_trials id cacheHitOracle searchOkOracle failOracle id
        sampleProfile).2.trial_source_called = true ∧
    ((find_matching_trials id cacheHitOracle searchOkOracle failOracle id
        sampleProfile).1.toOption.map MatchingResult.cached) = some false := by
  refine ⟨rfl, rfl, rfl, ?_⟩
  rfl

/-! ## C8 — error classification on source failure -/

/-- A trial source whose call raises (`Exception("API Error")`). -/
def searchFailOracle : SearchOracle := fun _ => .error "API Error"

/-- C8 counterexample: `_search_trials` classifies the upstream failure as
`"API_ERROR"`, but the error surfaced by `find_matching_trials` carries the
generic default classification `"MATCHING_ERROR"` — the same `error_type` an
internal/unexpected error receives — because the outer `except` re-wraps the
typed error; the upstream classification is not distinguished at the call
boundary. -/
theorem api_error_classification_lost :
    search_trials searchFailOracle sampleProfile =
      .error ⟨"Failed to search clinical trials: API Error", "API_ERROR"⟩ ∧
    (find_matching_trials id cacheHitOracle searchFailOracle failOracle id
        sampleProfile).1 =
      .error ⟨"Failed to find matching trials: Failed to search clinical trials: API Error",
        "MATCHING_ERROR"⟩ :=
  ⟨rfl, rfl⟩

/-- C8 amended: an unrecoverable Trial Source Adapter failure makes
`find_matching_trials` fail with a typed `TrialMatchingError`, but its
`error_type` is the generic `"MATCHING_ERROR"` (the `"API_ERROR"`
classification assigned by `_search_trials` survives only inside the message
text), while per-trial translation failures are always absorbed: whenever
the source call succeeds the request returns a result, for every translation
oracle. -/
theorem source_error_surfaces_translation_absorbed (md5 : String → String)
    (cacheO : String → Option MatchingResult) (searchO : SearchOracle)
    (translateO : TranslateOracle) (sched : List RawTrialData → List RawTrialData)
    (p : UserProfile) :
    (∀ msg, searchO (get_search_params p) = .error msg →
      (find_matching_trials md5 cacheO searchO translateO sched p).1 =
        .error ⟨"Failed to find matching trials: " ++
            ("Failed to search clinical trials: " ++ msg), "MATCHING_ERROR"⟩) ∧
    (∀ ts, searchO (get_search_params p) = .ok ts →
      ∃ r, (find_matching_trials md5 cacheO searchO translateO sched p).1 = .ok r ∧
        r.cached = false) := by
  constructor
  · intro msg h
    simp [find_matching_trials, search_trials, h]
  · intro ts h
    simp only [find_matching_trials, search_trials, h]
    split
    · exact ⟨_, rfl, rfl⟩
    · exact ⟨_, rfl, rfl⟩

/-- Witness for amended C8: both branches at concrete collaborators — a
failing source surfaces the re-wrapped `"MATCHING_ERROR"`, a succeeding
source yields a result even though every translation call fails. -/
theorem source_error_surfaces_translation_absorbed_witness :
    ((find_matching_trials id cacheHitOracle searchFailOracle failOracle id
        sampleProfile).1 =
      .error ⟨"Failed to find matching trials: Failed to search clinical trials: API Error",
        "MATCHING_ERROR"⟩) ∧
    (∃ r, (find_matching_trials id cacheHitOracle searchOkOracle failOracle id
        sampleProfile).1 = .ok r ∧ r.cached = false) :=
  ⟨(source_error_surfaces_translation_absorbed id cacheHitOracle searchFailOracle
      failOracle id sampleProfile).1 "API Error" rfl,
    (source_error_surfaces_translation_absorbed id cacheHitOracle searchOkOracle
      failOracle id sampleProfile).2 [sampleTrial] rfl⟩

/-! ## C7 — the aggregate success rate -/

/-- A well-formed translation response (all four required plain-language
fields present and non-empty) whose time-commitment text happens to contain
the fallback marker string. -/
def markerTranslation : TrialTranslation :=
  ⟨"A clear description.", "Anyone over 18 can join.",
    "Time commitment information not available. Please contact the study team for details.",
    "Free check-ups.", none⟩

/-- An oracle on which every translation call succeeds with the well-formed
`markerTranslation`. -/
def markerOracle : TranslateOracle := fun _ => some markerTranslation

/-- C7 counterexample: one submitted trial, the translation call succeeds
with a well-formed response containing all four required fields — yet the
success rate is 0, not 1.0, because the success flag is marker-based and the
response text contains the fallback marker. -/
theorem success_rate_not_one_despite_wellformed :
    (markerOracle sampleTrial).isSome = true ∧
    (process_trials_with_ai markerOracle [sampleTrial] [sampleTrial]).2 = 0 ∧
    (process_trials_with_ai markerOracle [sampleTrial] [sampleTrial]).2 ≠ 1 := by
  have hflag : (process_single_trial markerOracle sampleTrial).2 = false := by decide
  have hrate : (process_trials_with_ai markerOracle [sampleTrial] [sampleTrial]).2 = 0 := by
    simp [process_trials_with_ai, hflag]
  exact ⟨rfl, hrate, by rw [hrate]; norm_num⟩

/-- C7 amended: the rate equals (number of trials whose processing flag is
true, i.e. whose final content is marker-free) / (total trials submitted),
independent of the completion order; it is 0 when the submitted list is
empty, and 1.0 when every call succeeds with a well-formed response whose
content is free of the fallback marker strings. -/
theorem ai_success_rate_characterization (o : TranslateOracle)
    (raw order : List RawTrialData) (h : order.Perm raw) :
    ((process_trials_with_ai o raw order).2 =
      if raw.isEmpty then 0
      else ((raw.filter fun t => (process_single_trial o t).2).length : ℚ) / raw.length) ∧
    (raw.isEmpty = true → (process_trials_with_ai o raw order).2 = 0) ∧
    (raw.isEmpty = false →
      (∀ t ∈ raw, ∃ tr, o t = some tr ∧
        hasFallbackMarkers tr.eligibility_simplified tr.time_commitment = false) →
      (process_trials_with_ai o raw order).2 = 1) := by
  have hfilter : ((order.map (process_single_trial o)).filter (fun r => r.2)).length =
      (raw.filter fun t => (process_single_trial o t).2).length := by
    rw [List.filter_map]
    rw [List.length_map]
    exact ((h.filter _).length_eq)
  refine ⟨?_, ?_, ?_⟩
  · simp only [process_trials_with_ai]
    rw [hfilter]
  · intro he
    simp [process_trials_with_ai, he]
  · intro hne hall
    have hsame : (raw.filter fun t => (process_single_trial o t).2) = raw := by
      refine List.filter_eq_self.mpr ?_
      intro t ht
      obtain ⟨tr, htr, hmk⟩ := hall t ht
      simp [process_single_trial, translate_with_fallback, htr, hmk]
    have hraw : raw ≠ [] := by
      intro hval
      rw [hval] at hne
      simp at hne
    have hlen : (raw.length : ℚ) ≠ 0 :=
      Nat.cast_ne_zero.mpr fun hl => hraw (List.length_eq_zero.mp hl)
    have hval : (process_trials_with_ai o raw order).2 =
        (raw.length : ℚ) / (raw.length : ℚ) := by
      simp [process_trials_with_ai, hfilter, hsame, hne]
    rw [hval, div_self hlen]

/-- A well-formed, marker-free translation response. -/
def goodTranslation : TrialTranslation :=
  ⟨"A clear description.", "Anyone over 18 can join.", "Six visits over three months.",
    "Free check-ups.", none⟩

/-- An oracle on which every call succeeds with the marker-free
`goodTranslation`. -/
def goodOracle : TranslateOracle := fun _ => some goodTranslation

/-- Witness for amended C7: an all-successful two-trial run in reversed
completion order has rate 1, and the empty run has rate 0. -/
theorem ai_success_rate_characterization_witness :
    (process_trials_with_ai goodOracle [sampleTrial, sampleTrial2]
        [sampleTrial2, sampleTrial]).2 = 1 ∧
    (process_trials_with_ai goodOracle ([] : List RawTrialData) []).2 = 0 :=
  ⟨(ai_success_rate_characterization goodOracle [sampleTrial, sampleTrial2]
      [sampleTrial2, sampleTrial] (List.Perm.swap _ _ _)).2.2 rfl
      (by intro t ht; exact ⟨goodTranslation, rfl, by decide⟩),
    (ai_success_rate_characterization goodOracle [] [] (List.Perm.refl _)).2.1 rfl⟩

/-! ## Filter lemmas (C3, C9, C4) -/

theorem trialCat_eq_five_of_excluded (us : String) (t : RawTrialData)
    (h : isExcludedStatus t.status = true) : trialCat us t = 5 := by
  simp [trialCat, h]

theorem trialCat_le_four_of_not_excluded (us : String) (t : RawTrialData)
    (h : isExcludedStatus t.status = false) : trialCat us t ≤ 4 := by
  unfold trialCat
  rw [h]
  simp only [Bool.false_eq_true, if_false]
  split_ifs <;> omega

theorem not_excluded_of_trialCat_le_four (us : String) (t : RawTrialData)
    (h : trialCat us t ≤ 4) : isExcludedStatus t.status = false := by
  by_contra hc
  rw [Bool.not_eq_false] at hc
  rw [trialCat_eq_five_of_excluded us t hc] at h
  omega

theorem mem_bucket_iff (us : String) (i : Nat) (raw : List RawTrialData)
    (t : RawTrialData) : t ∈ bucket us i raw ↔ t ∈ raw ∧ trialCat us t = i := by
  simp [bucket, List.mem_filter]

theorem count_bucket (us : String) (i : Nat) (raw : List RawTrialData)
    (v : RawTrialData) :
    (bucket us i raw).count v = if trialCat us v = i then raw.count v else 0 := by
  by_cases h : trialCat us v = i
  · rw [if_pos h]
    exact List.count_filter (by simp [h])
  · rw [if_neg h]
    refine List.count_eq_zero.mpr ?_
    intro hmem
    exact h ((mem_bucket_iff us i raw v).mp hmem).2

/-- The capped bucket concatenation never repeats an input occurrence. -/
theorem count_preFiltered_le (us : String) (raw : List RawTrialData)
    (v : RawTrialData) : (preFiltered raw us).count v ≤ raw.count v := by
  unfold preFiltered
  rw [List.count_append, List.count_append, List.count_append]
  have e0 := count_bucket us 0 raw v
  have e1 := count_bucket us 1 raw v
  have e2 := count_bucket us 2 raw v
  have e3 := count_bucket us 3 raw v
  have l1 := (List.take_sublist 20 (bucket us 1 raw)).count_le v
  have l2 := (List.take_sublist 30 (bucket us 2 raw)).count_le v
  have l3 := (List.take_sublist 15 (bucket us 3 raw)).count_le v
  split_ifs at e0 e1 e2 e3 <;> omega

/-- Every member of the capped bucket concatenation is bucketed
(category at most 3) and comes from the input. -/
theorem mem_preFiltered (us : String) (raw : List RawTrialData) (t : RawTrialData)
    (h : t ∈ preFiltered raw us) : t ∈ raw ∧ trialCat us t ≤ 3 := by
  unfold preFiltered at h
  rcases List.mem_append.mp h with h123 | h4
  · rcases List.mem_append.mp h123 with h12 | h3
    · rcases List.mem_append.mp h12 with h1 | h2
      · have := (mem_bucket_iff us 0 raw t).mp h1
        exact ⟨this.1, by omega⟩
      · have := (mem_bucket_iff us 1 raw t).mp (List.take_subset _ _ h2)
        exact ⟨this.1, by omega⟩
    · have := (mem_bucket_iff us 2 raw t).mp (List.take_subset _ _ h3)
      exact ⟨this.1, by omega⟩
  · have := (mem_bucket_iff us 3 raw t).mp (List.take_subset _ _ h4)
    exact ⟨this.1, by omega⟩

/-- C9: the filter only selects and reorders input trials — every output
trial occurs in the input, and no input occurrence is emitted more than
once (output multiplicities are bounded by input multiplicities, backfill
included). -/
theorem filter_output_from_input (raw : List RawTrialData) (p : UserProfile)
    (t : RawTrialData) : (filter_trials raw p).count t ≤ raw.count t := by
  simp only [filter_trials]
  split
  · rw [List.count_append]
    by_cases hmem : t ∈ preFiltered raw (userState p)
    · have hrem : (raw.filter fun x =>
          !(preFiltered raw (userState p)).contains x && !isExcludedStatus x.status).count t
          = 0 := by
        refine List.count_eq_zero.mpr ?_
        intro hc
        have hand := (List.mem_filter.mp hc).2
        rw [Bool.and_eq_true] at hand
        have hcont : (preFiltered raw (userState p)).contains t = false := by
          have := hand.1
          rwa [Bool.not_eq_eq_eq_not, Bool.not_true] at this
        rw [List.contains, Bool.eq_false_iff] at hcont
        exact hcont (List.elem_iff.mpr hmem)
      have htake := (List.take_sublist 15 (raw.filter fun x =>
          !(preFiltered raw (userState p)).contains x && !isExcludedStatus x.status)).count_le t
      have hpre := count_preFiltered_le (userState p) raw t
      omega
    · have hpre0 : (preFiltered raw (userState p)).count t = 0 :=
        List.count_eq_zero.mpr hmem
      have hrem : (raw.filter fun x =>
          !(preFiltered raw (userState p)).contains x && !isExcludedStatus x.status).count t
          ≤ raw.count t := (List.filter_sublist _).count_le t
      have htake := (List.take_sublist 15 (raw.filter fun x =>
          !(preFiltered raw (userState p)).contains x && !isExcludedStatus x.status)).count_le t
      omega
  · exact count_preFiltered_le (userState p) raw t

/-- C3: the filter output never contains a trial whose status (compared
case-insensitively) is completed, terminated or withdrawn — backfilled
trials included. -/
theorem filter_never_outputs_closed (raw : List RawTrialData) (p : UserProfile)
    (t : RawTrialData) (h : t ∈ filter_trials raw p) :
    isExcludedStatus t.status = false := by
  simp only [filter_trials] at h
  have hpre : t ∈ preFiltered raw (userState p) → isExcludedStatus t.status = false :=
    fun hm => not_excluded_of_trialCat_le_four (userState p) t
      (by have := (mem_preFiltered (userState p) raw t hm).2; omega)
  split at h
  · rcases List.mem_append.mp h with h | h
    · exact hpre h
    · have hand := (List.mem_filter.mp (List.take_subset _ _ h)).2
      rw [Bool.and_eq_true] at hand
      have := hand.2
      rwa [Bool.not_eq_eq_eq_not, Bool.not_true] at this
  · exact hpre h

/-- Witness for C3: a mixed input (one recruiting, one completed, one
unknown-status trial — the latter enters through backfill); the completed
trial is absent and each emitted trial has a non-closed status. -/
theorem filter_never_outputs_closed_witness :
    (sampleTrial ∈ filter_trials [sampleTrial, completedTrial, sampleTrial2] sampleProfile) ∧
    (sampleTrial2 ∈ filter_trials [sampleTrial, completedTrial, sampleTrial2] sampleProfile) ∧
    isExcludedStatus sampleTrial.status = false ∧
    isExcludedStatus sampleTrial2.status = false ∧
    (completedTrial ∉ filter_trials [sampleTrial, completedTrial, sampleTrial2] sampleProfile) :=
  ⟨by decide, by decide,
    filter_never_outputs_closed [sampleTrial, completedTrial, sampleTrial2] sampleProfile
      sampleTrial (by decide),
    filter_never_outputs_closed [sampleTrial, completedTrial, sampleTrial2] sampleProfile
      sampleTrial2 (by decide),
    by decide⟩

/-- The bucketed occurrences (category at most 3) split exactly into the
four buckets. -/
theorem trialCat_le_five (us : String) (t : RawTrialData) : trialCat us t ≤ 5 := by
  simp only [trialCat]
  split_ifs <;> omega

theorem bucket_length_sum (us : String) (raw : List RawTrialData) :
    (raw.filter fun t => decide (trialCat us t ≤ 3)).length =
      (bucket us 0 raw).length + (bucket us 1 raw).length +
      (bucket us 2 raw).length + (bucket us 3 raw).length := by
  induction raw with
  | nil => rfl
  | cons t rest ih =>
    simp only [bucket] at ih ⊢
    have h5 := trialCat_le_five us t
    have hv : trialCat us t = 0 ∨ trialCat us t = 1 ∨ trialCat us t = 2 ∨
        trialCat us t = 3 ∨ trialCat us t = 4 ∨ trialCat us t = 5 := by omega
    rcases hv with h | h | h | h | h | h <;> simp [List.filter_cons, h] <;> omega

/-- The non-excluded occurrences split into the bucketed ones (category at
most 3) and the bucketless ones (category 4). -/
theorem nonExcluded_length_split (us : String) (raw : List RawTrialData) :
    (raw.filter fun t => !isExcludedStatus t.status).length =
      (raw.filter fun t => decide (trialCat us t ≤ 3)).length +
      (raw.filter fun t => trialCat us t == 4).length := by
  induction raw with
  | nil => rfl
  | cons t rest ih =>
    have h5 := trialCat_le_five us t
    have hv : trialCat us t = 0 ∨ trialCat us t = 1 ∨ trialCat us t = 2 ∨
        trialCat us t = 3 ∨ trialCat us t = 4 ∨ trialCat us t = 5 := by omega
    rcases hv with h | h | h | h | h | h
    case _ | _ | _ | _ | _ =>
      have hex : isExcludedStatus t.status = false :=
        not_excluded_of_trialCat_le_four us t (by omega)
      simp [List.filter_cons, h, hex]
      omega
    case _ =>
      have hex : isExcludedStatus t.status = true := by
        rcases Bool.eq_false_or_eq_true (isExcludedStatus t.status) with he | he
        · exact he
        · have := trialCat_le_four_of_not_excluded us t he
          omega
      simp [List.filter_cons, h, hex]
      omega

/-- C4: when the capped bucket concatenation holds fewer than 10 trials and
the input holds at least 10 non-excluded trials, the backfill step raises
the final filter output to at least 10 trials. -/
theorem backfill_reaches_minimum (raw : List RawTrialData) (p : UserProfile)
    (h1 : (preFiltered raw (userState p)).length < 10)
    (h2 : 10 ≤ (raw.filter fun t => !isExcludedStatus t.status).length) :
    10 ≤ (filter_trials raw p).length := by
  have hlen : (preFiltered raw (userState p)).length =
      (bucket (userState p) 0 raw).length +
      ((bucket (userState p) 1 raw).take 20).length +
      ((bucket (userState p) 2 raw).take 30).length +
      ((bucket (userState p) 3 raw).take 15).length := by
    simp only [preFiltered, List.length_append]
  have ht1 := List.length_take 20 (bucket (userState p) 1 raw)
  have ht2 := List.length_take 30 (bucket (userState p) 2 raw)
  have ht3 := List.length_take 15 (bucket (userState p) 3 raw)
  have hb1 : (bucket (userState p) 1 raw).length ≤ 20 := by omega
  have hb2 : (bucket (userState p) 2 raw).length ≤ 30 := by omega
  have hb3 : (bucket (userState p) 3 raw).length ≤ 15 := by omega
  have hpre_eq : (preFiltered raw (userState p)).length =
      (raw.filter fun t => decide (trialCat (userState p) t ≤ 3)).length := by
    rw [hlen, List.take_of_length_le hb1, List.take_of_length_le hb2,
      List.take_of_length_le hb3, bucket_length_sum]
  have hmono : (raw.filter fun t => trialCat (userState p) t == 4).length ≤
      (raw.filter fun t =>
        !(preFiltered raw (userState p)).contains t && !isExcludedStatus t.status).length := by
    refine (List.monotone_filter_right raw ?_).length_le
    intro t ht
    have h4 : trialCat (userState p) t = 4 := by simpa using ht
    have hnex : isExcludedStatus t.status = false :=
      not_excluded_of_trialCat_le_four (userState p) t (by omega)
    have hnm : t ∉ preFiltered raw (userState p) := by
      intro hm
      have := (mem_preFiltered (userState p) raw t hm).2
      omega
    simp [hnm, hnex]
  have hsplit := nonExcluded_length_split (userState p) raw
  simp only [filter_trials]
  split
  · rw [List.length_append, List.length_take]
    omega
  · omega

/-- Ten copies of a bucketless non-excluded trial: the capped buckets stay
empty and backfill must supply the minimum. -/
theorem backfill_reaches_minimum_witness :
    (preFiltered (List.replicate 10 sampleTrial2) (userState sampleProfile)).length < 10 ∧
    10 ≤ ((List.replicate 10 sampleTrial2).filter
      fun t => !isExcludedStatus t.status).length ∧
    10 ≤ (filter_trials (List.replicate 10 sampleTrial2) sampleProfile).length :=
  ⟨by decide, by decide,
    backfill_reaches_minimum (List.replicate 10 sampleTrial2) sampleProfile
      (by decide) (by decide)⟩

end CliniMatch
